import Mathlib

/-!
# Verification of the Aurora compiler front end (src/compiler.py)

A shallow embedding of the lexer and recursive-descent parser of the Aurora
actor-language compiler, together with theorems settling the specification
claims about it.  Python methods become Lean functions with explicit state
passing; `while` loops become fuel-indexed recursion (every loop advances the
position, so a fuel of `length + 1` is always sufficient); Python exceptions
become `Except` error values; an unhandled Python exception (such as a
`NameError` from an unbound variable) is a distinguished crash result.
-/

namespace Aurora

/-- Token kinds, from the `TokenType` enum (src/compiler.py lines 7-13). -/
inductive TokenType where
  | IDENTIFIER
  | KEYWORD
  | SYMBOL
  | NUMBER
  | STRING
  | EOF
deriving DecidableEq, Repr

/-- Python `str(TokenType.X)` as used in f-string error messages. -/
def TokenType.pyName : TokenType → String
  | .IDENTIFIER => "IDENTIFIER"
  | .KEYWORD => "KEYWORD"
  | .SYMBOL => "SYMBOL"
  | .NUMBER => "NUMBER"
  | .STRING => "STRING"
  | .EOF => "EOF"

def TokenType.pyStr (t : TokenType) : String := "TokenType." ++ t.pyName

/-- The keyword set `KEYWORDS` (src/compiler.py lines 15-17). -/
def KEYWORDS : List String :=
  ["actor", "supervisor", "func", "let", "var", "on", "spawn", "log",
   "restart", "message", "return"]

/-- A lexical token (class `Token`, src/compiler.py lines 19-27). -/
structure Token where
  type : TokenType
  value : String
  line : Nat
  column : Nat
deriving DecidableEq, Repr

/-- Python `repr(token)` (src/compiler.py lines 26-27), used by the
`Unexpected token {token}` message in `parse_declaration`. -/
def Token.pyRepr (t : Token) : String :=
  "Token(" ++ t.type.pyName ++ ", \x27" ++ t.value ++ "\x27, line=" ++
    toString t.line ++ ", col=" ++ toString t.column ++ ")"

/-- The `Lexer` object state (src/compiler.py lines 31-36): the source text
and the current position / line / column. -/
structure LexState where
  source : List Char
  position : Nat
  line : Nat
  column : Nat
deriving DecidableEq, Repr

/-- `Lexer.next_char` (lines 38-41): the character at the current position,
or `none` at end of input. -/
def LexState.next_char (st : LexState) : Option Char :=
  st.source.get? st.position

/-- `Lexer.advance` (lines 43-51): consume one character, updating line and
column.  `advance` is only ever called after a successful `next_char` check,
so the out-of-bounds case (a Python `IndexError`) leaves the state unchanged
here; no execution path in this development reaches it. -/
def LexState.advance (st : LexState) : LexState :=
  match st.source.get? st.position with
  | none => st
  | some ch =>
    if ch = '\n' then
      { st with position := st.position + 1, line := st.line + 1, column := 1 }
    else
      { st with position := st.position + 1, column := st.column + 1 }

/-- Python `str.isspace` restricted to the whitespace the spec names
(space, tab, newline, carriage return). -/
def pyIsSpace (c : Char) : Bool := c = ' ' || c = '\t' || c = '\n' || c = '\r'

def isIdentStart (c : Char) : Bool := c.isAlpha || c = '_'

def isIdentChar (c : Char) : Bool := c.isAlpha || c.isDigit || c = '_'

/-- Modelled from the spec: `Lexer.tokenize_identifier` is called at
src/compiler.py line 63 but its definition is missing from the source file.
Per spec §4.1: an identifier/keyword lexeme starts with a letter or
underscore and continues with letters, digits, or underscores; it is
classified `Keyword` if it exactly matches the fixed keyword set
(case-sensitive), else `Identifier`; line/column mark the first character of
the lexeme. -/
def tokenize_identifier (st : LexState) : Token × LexState :=
  let chars := (st.source.drop st.position).takeWhile isIdentChar
  let value := String.mk chars
  let ttype := if value ∈ KEYWORDS then TokenType.KEYWORD else TokenType.IDENTIFIER
  (⟨ttype, value, st.line, st.column⟩,
   { st with position := st.position + chars.length,
             column := st.column + chars.length })

/-- Modelled from the spec: `Lexer.tokenize_number` is called at
src/compiler.py line 68 but its definition is missing from the source file.
Per spec §4.1: a number lexeme is a maximal run of decimal digits. -/
def tokenize_number (st : LexState) : Token × LexState :=
  let chars := (st.source.drop st.position).takeWhile Char.isDigit
  let value := String.mk chars
  (⟨TokenType.NUMBER, value, st.line, st.column⟩,
   { st with position := st.position + chars.length,
             column := st.column + chars.length })

/-- The possible outcomes of `Lexer.tokenize` as written in the source
(lines 53-76).  The method's only `return` statements are the in-loop
`return Token(TokenType.STRING, string_val, start_line, start_col)` — whose
arguments `string_val`, `start_line`, `start_col` are never bound, so
evaluating it raises `NameError` — and the implicit `return None` when the
`while` loop ends.  No path returns the accumulated `tokens` list. -/
inductive TokenizeResult where
  /-- An unhandled Python exception escapes `tokenize`. -/
  | crash (msg : String)
  /-- The `while` loop finished and control fell off the end of the method:
  Python returns `None`, discarding the accumulated `tokens` list. -/
  | returnedNone
  /-- Embedding artifact: fuel exhausted (unreachable for fuel > source length). -/
  | fuelOut
deriving DecidableEq, Repr

/-- The `while` loop of `Lexer.tokenize` (src/compiler.py lines 53-76),
embedded faithfully.  Whitespace is skipped; identifier/keyword and number
lexemes delegate to the (spec-modelled) helpers; any other character falls
into the string-literal remnant at lines 72-76, whose first executed
statement reads the unbound local `string_val` and therefore raises
`NameError`.  There is no symbol branch, no end-of-input token is appended,
and the `tokens` list is never returned. -/
def tokenize_loop (fuel : Nat) (st : LexState) (tokens : List Token) : TokenizeResult :=
  match fuel with
  | 0 => TokenizeResult.fuelOut
  | fuel + 1 =>
    match st.next_char with
    | none => TokenizeResult.returnedNone
    | some ch =>
      if pyIsSpace ch then
        tokenize_loop fuel st.advance tokens
      else if isIdentStart ch then
        let (t, st2) := tokenize_identifier st
        tokenize_loop fuel st2 (tokens ++ [t])
      else if ch.isDigit then
        let (t, st2) := tokenize_number st
        tokenize_loop fuel st2 (tokens ++ [t])
      else
        TokenizeResult.crash "NameError: name string_val is not defined"

/-- `Lexer.tokenize` on a whole source text (fresh `Lexer(source)` state:
position 0, line 1, column 1). -/
def tokenize (source : String) : TokenizeResult :=
  tokenize_loop (source.length + 1) ⟨source.toList, 0, 1, 1⟩ []

/-! ## Parser (src/compiler.py lines 136-285)

The Python `Parser` holds an immutable token list and a mutable `position`;
each method is embedded as a function from a position to an
`Except ParseErr (result × Nat)` returning the new position.  `raise
Exception(msg)` becomes `ParseErr.unexpected msg`; the unchecked list access
`self.tokens[self.position]` in `current` becomes `ParseErr.indexOutOfRange`
when the index is past the end (Python `IndexError`). -/

/-- Failure modes of the parser. -/
inductive ParseErr where
  /-- `raise Exception(msg)` in the source. -/
  | unexpected (msg : String)
  /-- Python `IndexError` from `self.tokens[self.position]` in
  `Parser.current` (line 142), which has no bounds check. -/
  | indexOutOfRange
  /-- Embedding artifact: loop fuel exhausted (every loop strictly advances
  the position, so fuel > tokens.length never produces this). -/
  | outOfFuel
deriving DecidableEq, Repr

/-- The AST node classes (src/compiler.py lines 89-132).  Python bodies are
heterogeneous lists: an actor/supervisor body holds `Function` and
`EventHandler` nodes; a `Main` body holds raw tokens and the strings
returned by `parse_let` / `parse_supervisor_send`; function and handler
bodies hold raw tokens. -/
inductive ASTNode where
  | Actor (name : String) (body : List ASTNode)
  | Supervisor (name : String) (body : List ASTNode)
  | Function (name : String) (params : List Token) (returnType : String)
      (body : List Token)
  | EventHandler (event : String) (params : List Token) (body : List Token)
  | Main (body : List ASTNode)
  /-- A raw token appended into a `Main` body. -/
  | tok (t : Token)
  /-- A string (from `parse_let` or `parse_supervisor_send`) appended into a
  `Main` body. -/
  | strStmt (s : String)
deriving Repr

/-- `Parser.current` (lines 141-142): `self.tokens[self.position]`, with the
out-of-bounds access surfacing as `indexOutOfRange`. -/
def current (tokens : List Token) (pos : Nat) : Except ParseErr Token :=
  match tokens.get? pos with
  | some t => Except.ok t
  | none => Except.error ParseErr.indexOutOfRange

/-- The message of line 147: `Expected token type {expected_type} but got
{token.type} at line {token.line}`.  Note it reports the line only, not the
column. -/
def typeMismatchMsg (et : TokenType) (t : Token) : String :=
  "Expected token type " ++ et.pyStr ++ " but got " ++ t.type.pyStr ++
    " at line " ++ toString t.line

/-- The message of line 149: `Expected token '{expected_value}' but got
'{token.value}' at line {token.line}`.  Again the line only, no column. -/
def valueMismatchMsg (ev : String) (t : Token) : String :=
  "Expected token \x27" ++ ev ++ "\x27 but got \x27" ++ t.value ++
    "\x27 at line " ++ toString t.line

/-- The second check of `Parser.consume` (lines 148-149):
`if expected_value and token.value != expected_value`.  Python truthiness:
an empty expected string is falsy and skips the check (no call site passes
one). -/
def consume_value_check (token : Token) (pos : Nat) (expectedValue : Option String) :
    Except ParseErr (Token × Nat) :=
  match expectedValue with
  | some ev =>
    if ev ≠ "" ∧ token.value ≠ ev then
      Except.error (ParseErr.unexpected (valueMismatchMsg ev token))
    else
      Except.ok (token, pos + 1)
  | none => Except.ok (token, pos + 1)

/-- `Parser.consume` (lines 144-151): read the current token, check the
optional expected type then the optional expected value, and advance. -/
def consume (tokens : List Token) (pos : Nat) (expectedType : Option TokenType)
    (expectedValue : Option String) : Except ParseErr (Token × Nat) :=
  match current tokens pos with
  | Except.error e => Except.error e
  | Except.ok token =>
    match expectedType with
    | some et =>
      if token.type ≠ et then
        Except.error (ParseErr.unexpected (typeMismatchMsg et token))
      else
        consume_value_check token pos expectedValue
    | none => consume_value_check token pos expectedValue

/-- `Parser.parse_parameters` (lines 279-285): while the current token is
not the symbol `)`, append the raw consumed token to `params`; if the token
after it is the symbol `,`, consume the comma.  No `Param` structuring is
performed — names, colons and type names all land in the flat list. -/
def parse_parameters (fuel : Nat) (tokens : List Token) (pos : Nat)
    (params : List Token) : Except ParseErr (List Token × Nat) :=
  match fuel with
  | 0 => Except.error ParseErr.outOfFuel
  | fuel + 1 => do
    let t ← current tokens pos
    if t.type = TokenType.SYMBOL ∧ t.value = ")" then
      pure (params, pos)
    else do
      let (tk, p) ← consume tokens pos none none
      let t2 ← current tokens p
      if t2.type = TokenType.SYMBOL ∧ t2.value = "," then do
        let (_, p2) ← consume tokens p (some TokenType.SYMBOL) (some ",")
        parse_parameters fuel tokens p2 (params ++ [tk])
      else
        parse_parameters fuel tokens p (params ++ [tk])

/-- `Parser.parse_let` (lines 238-244): `let` IDENT `=` one token `;`,
returning the formatted string the source builds. -/
def parse_let (tokens : List Token) (pos : Nat) : Except ParseErr (String × Nat) := do
  let (_, p) ← consume tokens pos (some TokenType.KEYWORD) (some "let")
  let (nameTok, p) ← consume tokens p (some TokenType.IDENTIFIER) none
  let (_, p) ← consume tokens p (some TokenType.SYMBOL) (some "=")
  let (expr, p) ← consume tokens p none none
  let (_, p) ← consume tokens p (some TokenType.SYMBOL) (some ";")
  pure ("let " ++ nameTok.value ++ " = " ++ expr.value ++ ";", p)

/-- `Parser.parse_supervisor_send` (lines 246-264): the closure-style send
`target.method(message: \x7b param in sourceActor.sourceMethod() \x7d);`,
consumed token by token in grammar order and returned as the formatted
string the source builds. -/
def parse_supervisor_send (tokens : List Token) (pos : Nat) :
    Except ParseErr (String × Nat) := do
  let (supTok, p) ← consume tokens pos (some TokenType.IDENTIFIER) none
  let (_, p) ← consume tokens p (some TokenType.SYMBOL) (some ".")
  let (methodTok, p) ← consume tokens p (some TokenType.IDENTIFIER) none
  let (_, p) ← consume tokens p (some TokenType.SYMBOL) (some "(")
  let (_, p) ← consume tokens p (some TokenType.KEYWORD) (some "message")
  let (_, p) ← consume tokens p (some TokenType.SYMBOL) (some ":")
  let (_, p) ← consume tokens p (some TokenType.SYMBOL) (some "\x7b")
  let (paramTok, p) ← consume tokens p (some TokenType.IDENTIFIER) none
  let (_, p) ← consume tokens p (some TokenType.IDENTIFIER) (some "in")
  let (callTok, p) ← consume tokens p (some TokenType.IDENTIFIER) none
  let (_, p) ← consume tokens p (some TokenType.SYMBOL) (some ".")
  let (methodCallTok, p) ← consume tokens p (some TokenType.IDENTIFIER) none
  let (_, p) ← consume tokens p (some TokenType.SYMBOL) (some "(")
  let (_, p) ← consume tokens p (some TokenType.SYMBOL) (some ")")
  let (_, p) ← consume tokens p (some TokenType.SYMBOL) (some "\x7d")
  let (_, p) ← consume tokens p (some TokenType.SYMBOL) (some ")")
  let (_, p) ← consume tokens p (some TokenType.SYMBOL) (some ";")
  pure (supTok.value ++ "." ++ methodTok.value ++ "(message: \x7b " ++
    paramTok.value ++ " in " ++ callTok.value ++ "." ++ methodCallTok.value ++
    "() \x7d);", p)

/-- The body-collection loop of `parse_function` (lines 213-215) and
`parse_event_handler` (lines 273-275): `while self.current().value != "\x7d":
body.append(self.consume())`.  No brace-depth tracking — the loop stops at
the first `\x7d` regardless of nesting. -/
def collect_body (fuel : Nat) (tokens : List Token) (pos : Nat) (body : List Token) :
    Except ParseErr (List Token × Nat) :=
  match fuel with
  | 0 => Except.error ParseErr.outOfFuel
  | fuel + 1 => do
    let t ← current tokens pos
    if t.value = "\x7d" then
      pure (body, pos)
    else do
      let (tk, p) ← consume tokens pos none none
      collect_body fuel tokens p (body ++ [tk])

/-- `Parser.parse_function` (lines 203-217). -/
def parse_function (fuel : Nat) (tokens : List Token) (pos : Nat) :
    Except ParseErr (ASTNode × Nat) := do
  let (_, p) ← consume tokens pos (some TokenType.KEYWORD) (some "func")
  let (nameTok, p) ← consume tokens p (some TokenType.IDENTIFIER) none
  let (_, p) ← consume tokens p (some TokenType.SYMBOL) (some "(")
  let (params, p) ← parse_parameters fuel tokens p []
  let (_, p) ← consume tokens p (some TokenType.SYMBOL) (some ")")
  let (_, p) ← consume tokens p (some TokenType.SYMBOL) (some "->")
  let (retTok, p) ← consume tokens p (some TokenType.IDENTIFIER) none
  let (_, p) ← consume tokens p (some TokenType.SYMBOL) (some "\x7b")
  let (body, p) ← collect_body fuel tokens p []
  let (_, p) ← consume tokens p (some TokenType.SYMBOL) (some "\x7d")
  pure (ASTNode.Function nameTok.value params retTok.value body, p)

/-- `Parser.parse_event_handler` (lines 266-277). -/
def parse_event_handler (fuel : Nat) (tokens : List Token) (pos : Nat) :
    Except ParseErr (ASTNode × Nat) := do
  let (_, p) ← consume tokens pos (some TokenType.KEYWORD) (some "on")
  let (eventTok, p) ← consume tokens p (some TokenType.IDENTIFIER) none
  let (_, p) ← consume tokens p (some TokenType.SYMBOL) (some "(")
  let (params, p) ← parse_parameters fuel tokens p []
  let (_, p) ← consume tokens p (some TokenType.SYMBOL) (some ")")
  let (_, p) ← consume tokens p (some TokenType.SYMBOL) (some "\x7b")
  let (body, p) ← collect_body fuel tokens p []
  let (_, p) ← consume tokens p (some TokenType.SYMBOL) (some "\x7d")
  pure (ASTNode.EventHandler eventTok.value params body, p)

/-- The member loop of `parse_actor` (lines 177-184): `func` and `on`
members are parsed and appended; any other token is consumed by the bare
`self.consume()` and appended nowhere ("Skipping other declarations (like
variable declarations) for brevity.", line 183). -/
def parse_actor_body (fuel : Nat) (tokens : List Token) (pos : Nat)
    (body : List ASTNode) : Except ParseErr (List ASTNode × Nat) :=
  match fuel with
  | 0 => Except.error ParseErr.outOfFuel
  | fuel + 1 => do
    let t ← current tokens pos
    if t.value = "\x7d" then
      pure (body, pos)
    else if t.value = "func" then do
      let (n, p) ← parse_function fuel tokens pos
      parse_actor_body fuel tokens p (body ++ [n])
    else if t.value = "on" then do
      let (n, p) ← parse_event_handler fuel tokens pos
      parse_actor_body fuel tokens p (body ++ [n])
    else do
      let (_, p) ← consume tokens pos none none
      parse_actor_body fuel tokens p body

/-- `Parser.parse_actor` (lines 172-186). -/
def parse_actor (fuel : Nat) (tokens : List Token) (pos : Nat) :
    Except ParseErr (ASTNode × Nat) := do
  let (_, p) ← consume tokens pos (some TokenType.KEYWORD) (some "actor")
  let (nameTok, p) ← consume tokens p (some TokenType.IDENTIFIER) none
  let (_, p) ← consume tokens p (some TokenType.SYMBOL) (some "\x7b")
  let (body, p) ← parse_actor_body fuel tokens p []
  let (_, p) ← consume tokens p (some TokenType.SYMBOL) (some "\x7d")
  pure (ASTNode.Actor nameTok.value body, p)

/-- The member loop of `parse_supervisor` (lines 193-199), identical in
shape to the actor's: unrecognized members are consumed one token at a time
and dropped. -/
def parse_supervisor_body (fuel : Nat) (tokens : List Token) (pos : Nat)
    (body : List ASTNode) : Except ParseErr (List ASTNode × Nat) :=
  match fuel with
  | 0 => Except.error ParseErr.outOfFuel
  | fuel + 1 => do
    let t ← current tokens pos
    if t.value = "\x7d" then
      pure (body, pos)
    else if t.value = "func" then do
      let (n, p) ← parse_function fuel tokens pos
      parse_supervisor_body fuel tokens p (body ++ [n])
    else if t.value = "on" then do
      let (n, p) ← parse_event_handler fuel tokens pos
      parse_supervisor_body fuel tokens p (body ++ [n])
    else do
      let (_, p) ← consume tokens pos none none
      parse_supervisor_body fuel tokens p body

/-- `Parser.parse_supervisor` (lines 188-201). -/
def parse_supervisor (fuel : Nat) (tokens : List Token) (pos : Nat) :
    Except ParseErr (ASTNode × Nat) := do
  let (_, p) ← consume tokens pos (some TokenType.KEYWORD) (some "supervisor")
  let (nameTok, p) ← consume tokens p (some TokenType.IDENTIFIER) none
  let (_, p) ← consume tokens p (some TokenType.SYMBOL) (some "\x7b")
  let (body, p) ← parse_supervisor_body fuel tokens p []
  let (_, p) ← consume tokens p (some TokenType.SYMBOL) (some "\x7d")
  pure (ASTNode.Supervisor nameTok.value body, p)

/-- The body loop of `parse_main` (lines 228-234): `let` statements and
supervisor sends are parsed into strings; everything else is appended as a
raw token. -/
def parse_main_body (fuel : Nat) (tokens : List Token) (pos : Nat)
    (body : List ASTNode) : Except ParseErr (List ASTNode × Nat) :=
  match fuel with
  | 0 => Except.error ParseErr.outOfFuel
  | fuel + 1 => do
    let t ← current tokens pos
    if t.value = "\x7d" then
      pure (body, pos)
    else if t.value = "let" then do
      let (s, p) ← parse_let tokens pos
      parse_main_body fuel tokens p (body ++ [ASTNode.strStmt s])
    else if t.type = TokenType.IDENTIFIER ∧ t.value = "supervisor" then do
      let (s, p) ← parse_supervisor_send tokens pos
      parse_main_body fuel tokens p (body ++ [ASTNode.strStmt s])
    else do
      let (tk, p) ← consume tokens pos none none
      parse_main_body fuel tokens p (body ++ [ASTNode.tok tk])

/-- `Parser.parse_main` (lines 219-236). -/
def parse_main (fuel : Nat) (tokens : List Token) (pos : Nat) :
    Except ParseErr (ASTNode × Nat) := do
  let (_, p) ← consume tokens pos (some TokenType.KEYWORD) (some "func")
  let (_, p) ← consume tokens p (some TokenType.IDENTIFIER) none
  let (_, p) ← consume tokens p (some TokenType.SYMBOL) (some "(")
  let (_, p) ← consume tokens p (some TokenType.SYMBOL) (some ")")
  let (_, p) ← consume tokens p (some TokenType.SYMBOL) (some "->")
  let (_, p) ← consume tokens p (some TokenType.IDENTIFIER) none
  let (_, p) ← consume tokens p (some TokenType.SYMBOL) (some "\x7b")
  let (body, p) ← parse_main_body fuel tokens p []
  let (_, p) ← consume tokens p (some TokenType.SYMBOL) (some "\x7d")
  pure (ASTNode.Main body, p)

/-- `Parser.parse_declaration` (lines 159-170): dispatch on the current
keyword; anything else raises `Unexpected token {token}`. -/
def parse_declaration (fuel : Nat) (tokens : List Token) (pos : Nat) :
    Except ParseErr (ASTNode × Nat) := do
  let token ← current tokens pos
  if token.type = TokenType.KEYWORD then
    if token.value = "actor" then parse_actor fuel tokens pos
    else if token.value = "supervisor" then parse_supervisor fuel tokens pos
    else if token.value = "func" then parse_function fuel tokens pos
    else if token.value = "main" then parse_main fuel tokens pos
    else Except.error (ParseErr.unexpected ("Unexpected token " ++ token.pyRepr))
  else
    Except.error (ParseErr.unexpected ("Unexpected token " ++ token.pyRepr))

/-- The top-level loop of `Parser.parse` (lines 153-157): declarations are
collected until the current token has type `EOF`. -/
def parse_loop (fuel : Nat) (tokens : List Token) (pos : Nat)
    (nodes : List ASTNode) : Except ParseErr (List ASTNode × Nat) :=
  match fuel with
  | 0 => Except.error ParseErr.outOfFuel
  | fuel + 1 => do
    let t ← current tokens pos
    if t.type = TokenType.EOF then
      pure (nodes, pos)
    else do
      let (n, p) ← parse_declaration fuel tokens pos
      parse_loop fuel tokens p (nodes ++ [n])

/-- `Parser.parse` (lines 153-157) on a fresh `Parser(tokens)` (position 0). -/
def parse (fuel : Nat) (tokens : List Token) : Except ParseErr (List ASTNode) :=
  Except.map (fun r => r.1) (parse_loop fuel tokens 0 [])

/-! ## The full pipeline (`compile_source`, lines 301-319) -/

/-- Outcome of `compile_source`'s lexing-then-parsing pipeline
(`parse(tokenize(source))`). -/
inductive PipelineResult where
  /-- A declaration sequence is produced (unreachable with the source's
  `tokenize`, which never returns a token list). -/
  | declarations (nodes : List ASTNode)
  /-- `tokenize` raised an unhandled Python exception. -/
  | lexerCrash (msg : String)
  /-- A parse error. -/
  | parserError (e : ParseErr)
  /-- `tokenize` returned Python `None`; `compile_source` then iterates
  `tokens` and hands it to `Parser`, raising `TypeError`. -/
  | typeError (msg : String)
  /-- Embedding artifact: fuel exhausted. -/
  | fuelOut
deriving Repr

/-- The composition `parse(tokenize(source))` as `compile_source` runs it
(lines 301-311).  Because `tokenize` never returns a token list — it either
crashes with `NameError` in the string-literal remnant or falls off the end
of its loop returning `None` — the parser is never reached with actual
tokens. -/
def parse_tokenize (source : String) : PipelineResult :=
  match tokenize source with
  | TokenizeResult.crash msg => PipelineResult.lexerCrash msg
  | TokenizeResult.returnedNone =>
      PipelineResult.typeError "TypeError: NoneType object is not iterable"
  | TokenizeResult.fuelOut => PipelineResult.fuelOut

/-- The spec's `SupervisorSend` statement node (§3): target, method,
binding parameter, source actor, source method.  Defined from the spec's
words so that the source's string-valued result of
`parse_supervisor_send` can be compared against it (refinement). -/
structure SupervisorSend where
  target : String
  method : String
  bindingParam : String
  sourceActor : String
  sourceMethod : String
deriving DecidableEq, Repr

/-- The rendering the source's `parse_supervisor_send` produces for a
supervisor send (the f-string of line 264). -/
def SupervisorSend.render (s : SupervisorSend) : String :=
  s.target ++ "." ++ s.method ++ "(message: \x7b " ++ s.bindingParam ++ " in " ++
    s.sourceActor ++ "." ++ s.sourceMethod ++ "() \x7d);"

/-! ## Theorems settling the claims -/

/-- C1: claimed — tokenize on `actor Counter \x7b \x7d` returns the five
tokens Keyword(actor), Identifier(Counter), Symbol(\x7b), Symbol(\x7d),
EndOfInput.  In fact the source's `tokenize` has no symbol branch: on
reaching `\x7b` it falls into the string-literal remnant (lines 72-76),
whose first statement reads the unbound local `string_val` and raises
`NameError`; no end-of-input token is ever appended and the token list is
never returned. -/
theorem tokenize_actor_counter_crashes :
    tokenize "actor Counter \x7b \x7d" =
      TokenizeResult.crash "NameError: name string_val is not defined" := by
  rfl

/-- The token sequence of `func f() -> Int \x7b \x7b \x7d \x7d` (with an
end-of-input marker), used to settle C2. -/
def funcNestedTokens : List Token :=
  [⟨.KEYWORD, "func", 1, 1⟩, ⟨.IDENTIFIER, "f", 1, 6⟩, ⟨.SYMBOL, "(", 1, 7⟩,
   ⟨.SYMBOL, ")", 1, 8⟩, ⟨.SYMBOL, "->", 1, 10⟩, ⟨.IDENTIFIER, "Int", 1, 13⟩,
   ⟨.SYMBOL, "\x7b", 1, 17⟩, ⟨.SYMBOL, "\x7b", 1, 19⟩, ⟨.SYMBOL, "\x7d", 1, 21⟩,
   ⟨.SYMBOL, "\x7d", 1, 23⟩, ⟨.EOF, "", 1, 24⟩]

/-- C2: claimed — `parse_function` tracks brace depth (starting at 1 for
the consumed `\x7b`) and captures as body exactly the tokens strictly
between the outer braces, consuming the matching `\x7d`.  In fact the body
loop (lines 213-215) stops at the *first* `\x7d` with no depth tracking: on
`func f() -> Int \x7b \x7b \x7d \x7d` the captured body is the single token
`\x7b` (not the two tokens `\x7b`, `\x7d`), the inner `\x7d` is consumed as
the terminator, and the outer `\x7d` (index 9) is left unconsumed. -/
theorem parse_function_stops_at_first_rbrace :
    parse_function 100 funcNestedTokens 0 =
      Except.ok (ASTNode.Function "f" [] "Int" [⟨.SYMBOL, "\x7b", 1, 19⟩], 9) ∧
    funcNestedTokens.get? 9 = some ⟨.SYMBOL, "\x7d", 1, 23⟩ := by
  exact ⟨rfl, rfl⟩

/-- The token sequence of `actor A \x7b let x = 0; \x7d`, a field-style
member inside an actor, used to settle C3. -/
def actorFieldTokens : List Token :=
  [⟨.KEYWORD, "actor", 1, 1⟩, ⟨.IDENTIFIER, "A", 1, 7⟩, ⟨.SYMBOL, "\x7b", 1, 9⟩,
   ⟨.KEYWORD, "let", 1, 11⟩, ⟨.IDENTIFIER, "x", 1, 15⟩, ⟨.SYMBOL, "=", 1, 17⟩,
   ⟨.NUMBER, "0", 1, 19⟩, ⟨.SYMBOL, ";", 1, 20⟩, ⟨.SYMBOL, "\x7d", 1, 22⟩,
   ⟨.EOF, "", 1, 23⟩]

/-- The token sequence of `supervisor S \x7b var x = 0; \x7d`, used to
settle C3 for `parse_supervisor`. -/
def supervisorFieldTokens : List Token :=
  [⟨.KEYWORD, "supervisor", 1, 1⟩, ⟨.IDENTIFIER, "S", 1, 12⟩, ⟨.SYMBOL, "\x7b", 1, 14⟩,
   ⟨.KEYWORD, "var", 1, 16⟩, ⟨.IDENTIFIER, "x", 1, 20⟩, ⟨.SYMBOL, "=", 1, 22⟩,
   ⟨.NUMBER, "0", 1, 24⟩, ⟨.SYMBOL, ";", 1, 25⟩, ⟨.SYMBOL, "\x7d", 1, 27⟩,
   ⟨.EOF, "", 1, 28⟩]

/-- C3: claimed — a body member that starts with neither `func` nor `on`
(e.g. a field declaration) is captured whole and retained in the member
list as an OpaqueMember.  In fact the member loops of `parse_actor` (line
184) and `parse_supervisor` (line 199) consume such tokens one at a time
and append nothing ("Skipping other declarations (like variable
declarations) for brevity."): the five tokens of `let x = 0;` / `var x =
0;` are discarded and the resulting member list is empty. -/
theorem parse_actor_supervisor_drop_unrecognized_members :
    parse_actor 100 actorFieldTokens 0 = Except.ok (ASTNode.Actor "A" [], 9) ∧
    parse_supervisor 100 supervisorFieldTokens 0 =
      Except.ok (ASTNode.Supervisor "S" [], 9) := by
  exact ⟨rfl, rfl⟩

/-- C4: claimed — reaching end of input while a body is still open raises a
structured `UnexpectedEndOfInput` error.  In fact on the tokens of
`actor A \x7b` (closing `\x7d` omitted) the member loop consumes the
end-of-input token and then `Parser.current` reads
`self.tokens[self.position]` past the end of the list: parsing fails with
the unstructured out-of-range error (Python `IndexError`), not with
`UnexpectedEndOfInput`, which exists nowhere in the source. -/
theorem parse_unclosed_body_index_error :
    parse 100 [⟨.KEYWORD, "actor", 1, 1⟩, ⟨.IDENTIFIER, "A", 1, 7⟩,
        ⟨.SYMBOL, "\x7b", 1, 9⟩, ⟨.EOF, "", 2, 1⟩] =
      Except.error ParseErr.indexOutOfRange := by
  rfl

/-- The token sequence of `a: Int, b: Int)` — the state of
`parse_parameters` right after the opening `(` of `(a: Int, b: Int)` has
been consumed — used to settle C5. -/
def paramListTokens : List Token :=
  [⟨.IDENTIFIER, "a", 1, 2⟩, ⟨.SYMBOL, ":", 1, 3⟩, ⟨.IDENTIFIER, "Int", 1, 5⟩,
   ⟨.SYMBOL, ",", 1, 8⟩, ⟨.IDENTIFIER, "b", 1, 10⟩, ⟨.SYMBOL, ":", 1, 11⟩,
   ⟨.IDENTIFIER, "Int", 1, 13⟩, ⟨.SYMBOL, ")", 1, 16⟩]

/-- C5 counterexample: the claim says `parse_parameters` on
`(a: Int, b: Int)` returns exactly two Param values.  In fact it returns a
flat list of six raw tokens (names and colons and type names alike), so no
run of it yields a two-element result. -/
theorem parse_parameters_not_two_values :
    ¬ ∃ l pos, parse_parameters 100 paramListTokens 0 [] = Except.ok (l, pos) ∧
      l.length = 2 := by
  rintro ⟨l, pos, h1, h2⟩
  have heval : parse_parameters 100 paramListTokens 0 [] =
      Except.ok ([⟨.IDENTIFIER, "a", 1, 2⟩, ⟨.SYMBOL, ":", 1, 3⟩,
        ⟨.IDENTIFIER, "Int", 1, 5⟩, ⟨.IDENTIFIER, "b", 1, 10⟩,
        ⟨.SYMBOL, ":", 1, 11⟩, ⟨.IDENTIFIER, "Int", 1, 13⟩], 7) := rfl
  rw [heval] at h1
  injection h1 with h3
  injection h3 with h4 h5
  subst h4
  simp at h2

/-- C5 (amended): `parse_parameters` on the tokens of `(a: Int, b: Int)`
(after the `(` is consumed) returns the six raw tokens `a`, `:`, `Int`,
`b`, `:`, `Int` as a flat token list — the commas are consumed as
separators and not retained, and no name/type `Param` structuring is
performed — stopping at the `)` without consuming it; on the tokens of
`()` it returns the empty list. -/
theorem parse_parameters_returns_raw_tokens :
    parse_parameters 100 paramListTokens 0 [] =
      Except.ok ([⟨.IDENTIFIER, "a", 1, 2⟩, ⟨.SYMBOL, ":", 1, 3⟩,
        ⟨.IDENTIFIER, "Int", 1, 5⟩, ⟨.IDENTIFIER, "b", 1, 10⟩,
        ⟨.SYMBOL, ":", 1, 11⟩, ⟨.IDENTIFIER, "Int", 1, 13⟩], 7) ∧
    parse_parameters 100 [⟨.SYMBOL, ")", 1, 2⟩] 0 [] = Except.ok ([], 0) := by
  exact ⟨rfl, rfl⟩

/-- C6: claimed — tokenizing the unterminated string `"abc` raises
`UnterminatedString` at the line/column of the opening quote.  In fact no
`UnterminatedString` error exists in the source: the `"` character falls
into the string-literal remnant (lines 72-76), which reads the unbound
local `string_val` and raises `NameError`. -/
theorem tokenize_unterminated_string_crashes :
    tokenize "\"abc" =
      TokenizeResult.crash "NameError: name string_val is not defined" := by
  rfl

/-- The token sequence of `sup.send(message: \x7b a in c.m() \x7d);`, used
to settle C7.  Note `message` is in the keyword set and `in` is not, so
they lex as Keyword and Identifier respectively, exactly as
`parse_supervisor_send` expects. -/
def supSendTokens : List Token :=
  [⟨.IDENTIFIER, "sup", 1, 1⟩, ⟨.SYMBOL, ".", 1, 4⟩, ⟨.IDENTIFIER, "send", 1, 5⟩,
   ⟨.SYMBOL, "(", 1, 9⟩, ⟨.KEYWORD, "message", 1, 10⟩, ⟨.SYMBOL, ":", 1, 17⟩,
   ⟨.SYMBOL, "\x7b", 1, 19⟩, ⟨.IDENTIFIER, "a", 1, 21⟩, ⟨.IDENTIFIER, "in", 1, 23⟩,
   ⟨.IDENTIFIER, "c", 1, 26⟩, ⟨.SYMBOL, ".", 1, 27⟩, ⟨.IDENTIFIER, "m", 1, 28⟩,
   ⟨.SYMBOL, "(", 1, 29⟩, ⟨.SYMBOL, ")", 1, 30⟩, ⟨.SYMBOL, "\x7d", 1, 32⟩,
   ⟨.SYMBOL, ")", 1, 33⟩, ⟨.SYMBOL, ";", 1, 34⟩]

/-- C7: `parse_supervisor_send` on the tokens of
`sup.send(message: \x7b a in c.m() \x7d);` succeeds, consuming all 17
tokens in exactly the grammar's order (the final position equals the token
count), and returns the supervisor send determined by target `sup`, method
`send`, binding parameter `a`, source actor `c`, source method `m` — the
source represents the node as its rendered string, equal to the rendering
of `SupervisorSend sup send a c m`. -/
theorem parse_supervisor_send_example :
    parse_supervisor_send supSendTokens 0 =
      Except.ok ((SupervisorSend.mk "sup" "send" "a" "c" "m").render,
        supSendTokens.length) ∧
    supSendTokens.length = 17 := by
  exact ⟨rfl, rfl⟩

/-- C8: claimed — for a well-formed declaration sequence,
`parse(tokenize(source))` terminates deterministically with a declaration
sequence.  In fact `tokenize` never returns its token list (its only
`return` statement is the broken in-loop string-literal `return`, which
reads the unbound `string_val`): on the well-formed source
`func main() -> Void \x7b \x7d` the lexer crashes with `NameError` at the
`(` character, so the composition produces no declaration sequence at
all. -/
theorem parse_tokenize_no_declaration_sequence :
    parse_tokenize "func main() -> Void \x7b \x7d" =
      PipelineResult.lexerCrash "NameError: name string_val is not defined" := by
  rfl

/-- C9 counterexample: the claim says every `UnexpectedToken` failure from
`consume` reports the offending token's line and column.  For the token
`(` at line 3, column 7, with an expected kind of Keyword, the error
message is exactly `Expected token type TokenType.KEYWORD but got
TokenType.SYMBOL at line 3` — and the character `7` occurs nowhere in it,
so the column is not reported. -/
theorem consume_message_lacks_column :
    consume [⟨.SYMBOL, "(", 3, 7⟩] 0 (some .KEYWORD) none =
      Except.error (ParseErr.unexpected
        "Expected token type TokenType.KEYWORD but got TokenType.SYMBOL at line 3") ∧
    ("Expected token type TokenType.KEYWORD but got TokenType.SYMBOL at line 3".toList.contains '7')
      = false := by
  exact ⟨rfl, rfl⟩

/-- C9 (amended): every `UnexpectedToken` failure raised by `consume`
reports the expected versus actual kind (or expected versus actual text)
together with the offending token's line — but not its column: for any
token list whose current token is `t`, a kind mismatch produces exactly
`typeMismatchMsg`, and a text mismatch (with a non-empty expectation,
Python truthiness) produces exactly `valueMismatchMsg`, both of which are
built from `t.line` alone. -/
theorem consume_mismatch_reports_line (tokens : List Token) (pos : Nat) (t : Token)
    (et : TokenType) (ev : String) (hget : tokens.get? pos = some t) :
    (t.type ≠ et →
      consume tokens pos (some et) none =
        Except.error (ParseErr.unexpected (typeMismatchMsg et t))) ∧
    (ev ≠ "" → t.value ≠ ev →
      consume tokens pos none (some ev) =
        Except.error (ParseErr.unexpected (valueMismatchMsg ev t))) := by
  rw [List.get?_eq_getElem?] at hget
  constructor
  · intro hty
    simp [consume, current, hget, hty]
  · intro hev hval
    simp [consume, current, consume_value_check, hget, hev, hval]

/-- Witness for C9 (amended), at the token `(` (line 2, column 5): a kind
mismatch against Keyword and a text mismatch against `x` each yield the
line-only message. -/
theorem consume_mismatch_reports_line_witness :
    consume [⟨.SYMBOL, "(", 2, 5⟩] 0 (some .KEYWORD) none =
      Except.error (ParseErr.unexpected
        (typeMismatchMsg .KEYWORD ⟨.SYMBOL, "(", 2, 5⟩)) ∧
    consume [⟨.SYMBOL, "(", 2, 5⟩] 0 none (some "x") =
      Except.error (ParseErr.unexpected
        (valueMismatchMsg "x" ⟨.SYMBOL, "(", 2, 5⟩)) :=
  ⟨(consume_mismatch_reports_line [⟨.SYMBOL, "(", 2, 5⟩] 0 ⟨.SYMBOL, "(", 2, 5⟩
      .KEYWORD "x" rfl).1 (by decide),
   (consume_mismatch_reports_line [⟨.SYMBOL, "(", 2, 5⟩] 0 ⟨.SYMBOL, "(", 2, 5⟩
      .KEYWORD "x" rfl).2 (by decide) (by decide)⟩

/-- C10: `Parser.current` reads `self.tokens[self.position]` with no bounds
check, and the out-of-bounds branch (`indexOutOfRange` in this Option-based
embedding) is reachable from the public `parse` entry point: on the tokens
of `actor A \x7b` with no end-of-input terminator, the member loop runs the
position past the end of the list, and `current` applied there takes the
out-of-bounds branch. -/
theorem parse_reaches_out_of_bounds_read :
    parse 100 [⟨.KEYWORD, "actor", 1, 1⟩, ⟨.IDENTIFIER, "A", 1, 7⟩,
        ⟨.SYMBOL, "\x7b", 1, 9⟩] =
      Except.error ParseErr.indexOutOfRange ∧
    current [⟨.KEYWORD, "actor", 1, 1⟩, ⟨.IDENTIFIER, "A", 1, 7⟩,
        ⟨.SYMBOL, "\x7b", 1, 9⟩] 3 =
      Except.error ParseErr.indexOutOfRange := by
  exact ⟨rfl, rfl⟩

end Aurora
